import Mathlib

/-!
Verification development for the phi-adapter-hue repository.

The repository contains two parallel implementations of the Hue bridge
integration: the in-process `HueAdapter` (src/hueadapter.cpp) and the IPC
`HueSidecar` (src/hueadapter.h together with src/hue_model.cpp).  The
definitions below are shallow embeddings of the functions those files
implement.  C++ `double` values are modelled as rationals (`ℚ`), Qt hashes
and sets as association lists / lists with set semantics, and the
timer-driven control flow as explicit step functions over state records.
-/

set_option maxHeartbeats 1000000

namespace HueModel

/-- `std::clamp(v, lo, hi)`: `v < lo ? lo : (hi < v ? hi : v)`,
i.e. `min (max v lo) hi` for `lo ≤ hi`. -/
def stdClamp (v lo hi : ℚ) : ℚ := min (max v lo) hi

/-- Qt `qBound(min, val, max) = qMax(min, qMin(max, val))` on rationals. -/
def qBoundQ (lo v hi : ℚ) : ℚ := max lo (min hi v)

/-- Qt `qBound(min, val, max)` on integers. -/
def qBoundI (lo v hi : ℤ) : ℤ := max lo (min hi v)

/-- `std::round` / Qt `qRound`: rounding half away from zero.  Both C++
functions agree on all inputs relevant here. -/
def roundHalfAway (q : ℚ) : ℤ := if 0 ≤ q then ⌊q + 1/2⌋ else -⌊-q + 1/2⌋

/-- `QString::trimmed`: strip leading and trailing whitespace.  Implemented
structurally over the character list so that it evaluates inside proofs. -/
def qtTrimmed (s : String) : String :=
  ⟨((s.data.dropWhile Char.isWhitespace).reverse.dropWhile
      Char.isWhitespace).reverse⟩

/-! ## Gamut geometry (hueadapter.cpp, lines 3183-3290) -/

/-- A 2-D chromaticity point (`QPointF`). -/
structure PointQ where
  x : ℚ
  y : ℚ
  deriving DecidableEq

/-- `closestPointOnSegment` (hueadapter.cpp:3185-3199): orthogonal projection
of `p` onto the segment `a`-`b`, clamped to the segment; degenerate segments
(squared length at most `1e-12`) collapse to `a`. -/
def closestPointOnSegment (p a b : PointQ) : PointQ :=
  let abx := b.x - a.x
  let aby := b.y - a.y
  let apx := p.x - a.x
  let apy := p.y - a.y
  let abLen2 := abx * abx + aby * aby
  if abLen2 ≤ 1 / 1000000000000 then a
  else
    let t := qBoundQ 0 ((apx * abx + apy * aby) / abLen2) 1
    ⟨a.x + abx * t, a.y + aby * t⟩

/-- `signedArea` (hueadapter.cpp:3201-3204). -/
def signedArea (a b c : PointQ) : ℚ :=
  1/2 * ((b.x - a.x) * (c.y - a.y) - (b.y - a.y) * (c.x - a.x))

/-- `pointInTriangle` (hueadapter.cpp:3206-3216): `p` is inside (or on the
boundary of) the triangle when the three signed areas do not have strictly
mixed signs. -/
def pointInTriangle (p a b c : PointQ) : Bool :=
  let area1 := signedArea p a b
  let area2 := signedArea p b c
  let area3 := signedArea p c a
  let hasNeg := decide (area1 < 0) || decide (area2 < 0) || decide (area3 < 0)
  let hasPos := decide (area1 > 0) || decide (area2 > 0) || decide (area3 > 0)
  !(hasNeg && hasPos)

/-- `HueAdapter::HueGamut` (hueadapter.h:91-99). -/
structure HueGamut where
  p1 : PointQ
  p2 : PointQ
  p3 : PointQ
  deriving DecidableEq

/-- `HueGamut::isValid` (hueadapter.h:95-98). -/
def HueGamut.isValid (g : HueGamut) : Bool :=
  decide (g.p1 ≠ g.p2) && decide (g.p2 ≠ g.p3) && decide (g.p3 ≠ g.p1)

/-- Squared distance, as the `dist2` lambda in `clampColorToGamut`
(hueadapter.cpp:3268-3272). -/
def dist2 (u v : PointQ) : ℚ :=
  let dx := u.x - v.x
  let dy := u.y - v.y
  dx * dx + dy * dy

/-- The three candidate edge projections considered by `clampColorToGamut`. -/
def gamutEdgeProjections (g : HueGamut) (p : PointQ) : List PointQ :=
  [closestPointOnSegment p g.p1 g.p2,
   closestPointOnSegment p g.p2 g.p3,
   closestPointOnSegment p g.p3 g.p1]

/-- The candidate-selection tail of `clampColorToGamut`
(hueadapter.cpp:3278-3286): start from `pAB`, replace by `pBC` when strictly
closer, then by `pCA` when strictly closer than the current minimum. -/
def pickClosest (p pAB pBC pCA : PointQ) : PointQ :=
  let dAB := dist2 p pAB
  let dBC := dist2 p pBC
  let dCA := dist2 p pCA
  let closest1 := pAB
  let dMin1 := dAB
  let closest2 := if dBC < dMin1 then pBC else closest1
  let dMin2 := if dBC < dMin1 then dBC else dMin1
  if dCA < dMin2 then pCA else closest2

/-- Body of `HueAdapter::clampColorToGamut` (hueadapter.cpp:3254-3289) for a
known, valid gamut: keep `p` when inside the triangle, otherwise select the
closest of the three edge projections (ties resolved AB, then BC, then CA by
the strict comparisons in the source). -/
def clampToGamutCore (g : HueGamut) (p : PointQ) : PointQ :=
  if pointInTriangle p g.p1 g.p2 g.p3 then p
  else
    pickClosest p (closestPointOnSegment p g.p1 g.p2)
      (closestPointOnSegment p g.p2 g.p3)
      (closestPointOnSegment p g.p3 g.p1)

/-- `HueAdapter::clampColorToGamut` (hueadapter.cpp:3244-3290): look up the
light's gamut in `m_gamutByLightId`; a missing or invalid gamut leaves the
point unchanged. -/
def clampColorToGamut (gamuts : List (String × HueGamut)) (lightId : String)
    (p : PointQ) : PointQ :=
  match gamuts.lookup lightId with
  | none => p
  | some g => if g.isValid then clampToGamutCore g p else p

/-! ## Button multi-press debouncer (hueadapter.cpp:3123-3146, 3973-4042) -/

/-- `ButtonEventCode` values used by the adapter (the enum itself lives in the
adapter SDK); only the constructors exercised by the button path are listed. -/
inductive ButtonEventCode where
  | None
  | InitialPress
  | LongPress
  | Repeat
  | ShortPressRelease
  | LongPressRelease
  | DoublePress
  | TriplePress
  | QuadruplePress
  | QuintuplePress
  deriving DecidableEq

/-- `kButtonMultiPressWindowMs` (hueadapter.cpp:31). -/
def kButtonMultiPressWindowMs : Nat := 1200

/-- `kButtonMultiPressResetGapMs` (hueadapter.cpp:32). -/
def kButtonMultiPressResetGapMs : Int := 500

/-- `HueAdapter::ButtonMultiPressTracker` for a single (device, channel)
binding key; `timerArmed` models whether the single-shot aggregation-window
timer is running. -/
structure ButtonMultiPressTracker where
  deviceExtId : String
  channelExtId : String
  count : Nat
  lastTs : Int
  timerArmed : Bool
  deriving DecidableEq

/-- Default-constructed tracker; `m_buttonMultiPress[key]` creates this entry
when the key is absent, and a missing map entry behaves identically to it
because its `count = 0` fails every guard that inspects the tracker. -/
def ButtonMultiPressTracker.init : ButtonMultiPressTracker :=
  { deviceExtId := "", channelExtId := "", count := 0, lastTs := 0, timerArmed := false }

/-- `HueAdapter::finalizePendingShortPress` (hueadapter.cpp:3997-4042) for one
tracker: stop the timer; a count below 2 just resets; otherwise reset and emit
one aggregated event (2 maps to Double, 3 to Triple, 4 to Quadruple, anything
larger to Quintuple), stamped with the tracked timestamp, provided the tracked
device and channel ids are non-empty. -/
def finalizePendingShortPress (tr : ButtonMultiPressTracker) :
    ButtonMultiPressTracker × Option (ButtonEventCode × Int) :=
  let trStopped := { tr with timerArmed := false }
  if trStopped.count < 2 then
    ({ trStopped with count := 0, lastTs := 0 }, none)
  else
    let count := trStopped.count
    let ts := trStopped.lastTs
    let trReset := { trStopped with count := 0, lastTs := 0 }
    let aggregated : ButtonEventCode :=
      match count with
      | 2 => .DoublePress
      | 3 => .TriplePress
      | 4 => .QuadruplePress
      | _ => .QuintuplePress
    if trReset.deviceExtId ≠ "" ∧ trReset.channelExtId ≠ "" then
      (trReset, some (aggregated, ts))
    else
      (trReset, none)

/-- `HueAdapter::handleShortPressRelease` (hueadapter.cpp:3973-3995):
unconditionally adopt the ids, bump the count, record the timestamp and
(re)start the aggregation-window timer. -/
def handleShortPressRelease (tr : ButtonMultiPressTracker)
    (deviceExtId channelExtId : String) (eventTs : Int) : ButtonMultiPressTracker :=
  if deviceExtId = "" ∨ channelExtId = "" then tr
  else
    { deviceExtId := deviceExtId, channelExtId := channelExtId,
      count := tr.count + 1, lastTs := eventTs, timerArmed := true }

/-- Tail of `HueAdapter::handleV2ButtonResource` (hueadapter.cpp:3067-3146)
after channel resolution: on an initial press with a tracked burst whose gap
reaches the reset threshold, flush the pending count first; on a short
release, run `handleShortPressRelease`; always emit the raw event code. -/
def handleV2ButtonEvent (tr : ButtonMultiPressTracker)
    (deviceExtId channelExtId : String) (code : ButtonEventCode) (eventTs : Int) :
    ButtonMultiPressTracker × List (ButtonEventCode × Int) :=
  if code = .None then (tr, [])
  else
    let fl :=
      if code = .InitialPress ∧ tr.count > 0 ∧ tr.lastTs > 0 ∧
          eventTs - tr.lastTs ≥ kButtonMultiPressResetGapMs then
        finalizePendingShortPress tr
      else (tr, none)
    let tr2 :=
      if code = .ShortPressRelease then
        handleShortPressRelease fl.1 deviceExtId channelExtId eventTs
      else fl.1
    (tr2, fl.2.toList ++ [(code, eventTs)])

/-- Discrete inputs delivered to the debouncer: a button event from the
bridge, or the aggregation-window timer firing. -/
inductive ButtonInput where
  | event (code : ButtonEventCode) (ts : Int)
  | timerFire
  deriving DecidableEq

/-- One cooperative dispatch step: the single-shot timer only finalizes when
armed. -/
def buttonStep (deviceExtId channelExtId : String) (tr : ButtonMultiPressTracker) :
    ButtonInput → ButtonMultiPressTracker × List (ButtonEventCode × Int)
  | .event code ts => handleV2ButtonEvent tr deviceExtId channelExtId code ts
  | .timerFire =>
    if tr.timerArmed then
      ((finalizePendingShortPress tr).1, (finalizePendingShortPress tr).2.toList)
    else (tr, [])

/-- Run a list of inputs through the debouncer, collecting every emission. -/
def buttonRun (deviceExtId channelExtId : String) (tr : ButtonMultiPressTracker) :
    List ButtonInput → ButtonMultiPressTracker × List (ButtonEventCode × Int)
  | [] => (tr, [])
  | i :: rest =>
    let s := buttonStep deviceExtId channelExtId tr i
    let r := buttonRun deviceExtId channelExtId s.1 rest
    (r.1, s.2 ++ r.2)

/-- Aggregated multi-press codes (never produced as raw bridge events). -/
def isAggregatedCode : ButtonEventCode → Bool
  | .DoublePress | .TriplePress | .QuadruplePress | .QuintuplePress => true
  | _ => false

/-! ## Adapter v2 snapshot retry and finalization
(hueadapter.cpp:814-847, 1027-1077, 1719-1734) -/

/-- `kMaxV2ResourceSnapshotRetries` (hueadapter.cpp:37). -/
def kMaxV2ResourceSnapshotRetries : Nat := 3

/-- `kV2ResourceRetryBaseDelayMs` (hueadapter.cpp:38). -/
def kV2ResourceRetryBaseDelayMs : Nat := 1000

/-- `QHash::insert` on an association list: replace the entry for the key or
append a fresh one. -/
def assocInsert {α : Type} (xs : List (String × α)) (k : String) (v : α) :
    List (String × α) :=
  match xs with
  | [] => [(k, v)]
  | (k', v') :: rest =>
    if k' = k then (k, v) :: rest else (k', v') :: assocInsert rest k v

/-- `QHash::remove` on an association list. -/
def assocErase {α : Type} (xs : List (String × α)) (k : String) :
    List (String × α) :=
  xs.filter (fun p => p.1 != k)

/-- The snapshot-cycle bookkeeping of `HueAdapter`; resource payload entries
are abstracted to strings (only presence and emptiness of arrays matter
here). -/
structure V2SnapshotState where
  pendingTypes : List String
  retryCount : List (String × Nat)
  snapshotByType : List (String × List String)
  snapshotFailedThisCycle : Bool
  snapshotPending : Nat
  bootstrapDone : Bool
  pendingDeviceFetch : List String
  deviceFetchQueue : List String
  deriving DecidableEq

/-- `HueAdapter::finalizeV2SnapshotIfReady` (hueadapter.cpp:1719-1734).  The
returned Bool records whether control reaches
`buildDevicesFromV2Snapshots()` — the only site that emits device updates and
removals during bootstrap; the failed-cycle branch marks the bootstrap done,
clears the failure flag and returns without rebuilding anything. -/
def finalizeV2SnapshotIfReady (st : V2SnapshotState) : V2SnapshotState × Bool :=
  if ¬ st.bootstrapDone ∧ st.snapshotPending = 0 ∧
      st.pendingDeviceFetch = [] ∧ st.deviceFetchQueue = [] then
    if st.snapshotFailedThisCycle then
      ({ st with bootstrapDone := true, snapshotFailedThisCycle := false }, false)
    else
      (st, true)
  else
    (st, false)

/-- Outcome of a failed bootstrap snapshot request. -/
inductive SnapshotFailureOutcome where
  | retryScheduled (delayMs : Nat)
  | gaveUp (buildInvoked : Bool)
  deriving DecidableEq

/-- Error branch of `HueAdapter::onNetworkReplyFinished` for a failed
bootstrap snapshot request `/clip/v2/resource/{type}`
(hueadapter.cpp:814-847): below the retry bound, schedule another attempt of
the same request after a linearly growing delay; otherwise record an empty
array for the type, mark the cycle failed, decrement the pending count
(guarded against underflow, as `if (m_v2SnapshotPending > 0)` in the source)
and try to finalize.  This handling is identical for every resource type. -/
def onV2ResourceSnapshotError (st : V2SnapshotState) (resourceType : String) :
    V2SnapshotState × SnapshotFailureOutcome :=
  let st0 := { st with pendingTypes := st.pendingTypes.erase resourceType }
  let attempt := (st0.retryCount.lookup resourceType).getD 0
  if attempt < kMaxV2ResourceSnapshotRetries then
    ({ st0 with retryCount := assocInsert st0.retryCount resourceType (attempt + 1) },
     .retryScheduled (kV2ResourceRetryBaseDelayMs * (attempt + 1)))
  else
    let st1 := { st0 with
      retryCount := assocErase st0.retryCount resourceType,
      snapshotFailedThisCycle := true,
      snapshotByType := assocInsert st0.snapshotByType resourceType [],
      snapshotPending := st0.snapshotPending - 1 }
    let fin := finalizeV2SnapshotIfReady st1
    (fin.1, .gaveUp fin.2)

/-! ## Sidecar poll cycle (hueadapter.h:603-728) -/

/-- The per-type fetch plan of `HueSidecar::pollBridge`
(hueadapter.h:629-652), in source order.  `true` marks a core type whose
fetch failure aborts the poll with the error passed up; `false` marks a
secondary type whose failure is replaced by an empty array on the spot.
(The subsequent best-effort `zigbee_device_discovery` fetch, lines 654-667,
affects neither the snapshot arrays nor error reporting.) -/
def pollBridgeFetchPlan : List (String × Bool) :=
  [("device", true), ("light", true),
   ("motion", false), ("tamper", false), ("temperature", false),
   ("light_level", false), ("device_power", false), ("button", false),
   ("zigbee_connectivity", false),
   ("room", true), ("zone", true), ("scene", true)]

/-- The sequential fetch part of `pollBridge` over a plan, with `fetch`
modelling `fetchResourceArray` (`none` = failure).  Returns the per-type
arrays (secondary failures recorded as empty arrays) or the first failing
core type, together with the log of fetch attempts actually issued.  Each
plan entry is fetched at most once: `pollBridge` contains no retry loop. -/
def pollBridgeFetchLoop (fetch : String → Option (List String)) :
    List (String × Bool) → Except String (List (String × List String)) × List String
  | [] => (.ok [], [])
  | (t, core) :: rest =>
    match fetch t with
    | some arr =>
      let r := pollBridgeFetchLoop fetch rest
      (Except.map (fun xs => (t, arr) :: xs) r.1, t :: r.2)
    | none =>
      if core then (.error t, [t])
      else
        let r := pollBridgeFetchLoop fetch rest
        (Except.map (fun xs => (t, []) :: xs) r.1, t :: r.2)

/-- `HueSidecar::pollBridge`, fetch phase (hueadapter.h:629-652). -/
def pollBridgeFetches (fetch : String → Option (List String)) :
    Except String (List (String × List String)) × List String :=
  pollBridgeFetchLoop fetch pollBridgeFetchPlan

/-- A fetch outcome where every resource type succeeds except `button`
(e.g. the bridge times out on that collection on every attempt). -/
def buttonFailingFetch : String → Option (List String) :=
  fun t => if t = "button" then none else some ["res"]

/-- A snapshot-cycle state in which the `button` type has already exhausted
its 3 retries while the core `device` and `light` snapshots arrived intact,
with the `button` reply the last outstanding one. -/
def buttonExhaustedState : V2SnapshotState :=
  { pendingTypes := ["button"]
    retryCount := [("button", 3)]
    snapshotByType := [("device", ["dev-1"]), ("light", ["light-1"])]
    snapshotFailedThisCycle := false
    snapshotPending := 1
    bootstrapDone := false
    pendingDeviceFetch := []
    deviceFetchQueue := [] }

/-! ## Sidecar snapshot publication (hueadapter.h:730-831, hue_model.cpp) -/

/-- `phicore::adapter::v1::ScalarValue`: bool / int64 / double / string. -/
inductive ScalarValue where
  | b (v : Bool)
  | i (v : Int)
  | d (v : ℚ)
  | s (v : String)
  deriving DecidableEq

/-- The fields of `v1::Channel` that `publishSnapshot` reads. -/
structure ChannelV1 where
  externalId : String
  hasValue : Bool
  lastValue : ScalarValue
  deriving DecidableEq

/-- The fields of `v1::Device` that `publishSnapshot` reads. -/
structure DeviceV1 where
  externalId : String
  name : String
  deriving DecidableEq

/-- `DeviceEntry` (hue_model.h:24-28); of `DeviceState` only
`lightResourceId` participates in `publishSnapshot`. -/
structure DeviceEntry where
  device : DeviceV1
  channels : List ChannelV1
  lightResourceId : String
  deriving DecidableEq

/-- The fields of `v1::Room` relevant here. -/
structure RoomV1 where
  externalId : String
  name : String
  deriving DecidableEq

/-- The fields of `v1::Group` relevant here. -/
structure GroupV1 where
  externalId : String
  name : String
  deriving DecidableEq

/-- The `v1::Scene` fields produced by `buildSnapshot`
(hue_model.cpp:820-835). -/
structure SceneV1 where
  externalId : String
  name : String
  scopeExternalId : String
  scopeType : String
  deriving DecidableEq

/-- `Snapshot` (hue_model.h:30-35); the device hash is modelled as an
association list keyed, as in the source, by the bridge device id. -/
structure Snapshot where
  devices : List (String × DeviceEntry)
  rooms : List RoomV1
  groups : List GroupV1
  scenes : List SceneV1
  deriving DecidableEq

/-- The `HueSidecar` members mutated by `publishSnapshot`: `m_devices`,
`m_lightResourceByDevice`, `m_knownRooms`, `m_knownGroups`. -/
structure SidecarState where
  devices : List (String × DeviceEntry)
  lightResourceByDevice : List (String × String)
  knownRooms : List String
  knownGroups : List String
  deriving DecidableEq

/-- A freshly constructed sidecar (all caches empty). -/
def SidecarState.init : SidecarState :=
  { devices := [], lightResourceByDevice := [], knownRooms := [], knownGroups := [] }

/-- The calls `publishSnapshot` makes on the state sink, in order. -/
inductive SinkEvent where
  | deviceRemoved (id : String)
  | deviceUpdated (id : String) (entry : DeviceEntry)
  | channelValue (deviceId channelId : String) (v : ScalarValue)
  | roomUpdated (r : RoomV1)
  | roomRemoved (id : String)
  | groupUpdated (g : GroupV1)
  | groupRemoved (id : String)
  | scenesReplaced (scenes : List SceneV1)
  deriving DecidableEq

/-- `QHash::contains` on an association list. -/
def containsKey {α : Type} (xs : List (String × α)) (k : String) : Bool :=
  xs.any (fun p => p.1 == k)

/-- Removal loop of `publishSnapshot` (hueadapter.h:734-743): every
previously published device whose key is absent from the snapshot is reported
removed. -/
def deviceRemovalEvents (st : SidecarState) (snap : Snapshot) : List SinkEvent :=
  st.devices.filterMap (fun kv =>
    if containsKey snap.devices kv.1 then none else some (.deviceRemoved kv.1))

/-- Device update loop of `publishSnapshot` (hueadapter.h:747-774): every
snapshot device is sent as updated — there is no comparison against
previously published content — followed by one channel-value call per channel
that carries a value. -/
def deviceUpdateEvents (snap : Snapshot) : List SinkEvent :=
  snap.devices.flatMap (fun kv =>
    SinkEvent.deviceUpdated kv.1 kv.2 ::
      kv.2.channels.filterMap (fun ch =>
        if ch.hasValue then
          some (.channelValue kv.2.device.externalId ch.externalId ch.lastValue)
        else none))

/-- `nextLightByDevice` accumulation inside the update loop
(hueadapter.h:772-773). -/
def nextLightByDevice (snap : Snapshot) : List (String × String) :=
  snap.devices.filterMap (fun kv =>
    if kv.2.lightResourceId ≠ "" then some (kv.1, kv.2.lightResourceId) else none)

/-- Room updates (hueadapter.h:777-787); rooms with empty ids are skipped. -/
def roomUpdateEvents (snap : Snapshot) : List SinkEvent :=
  snap.rooms.filterMap (fun r =>
    if r.externalId ≠ "" then some (.roomUpdated r) else none)

/-- The `nextRooms` set (hueadapter.h:776-781). -/
def nextRooms (snap : Snapshot) : List String :=
  snap.rooms.filterMap (fun r =>
    if r.externalId ≠ "" then some r.externalId else none)

/-- Stale-room removals (hueadapter.h:788-796). -/
def roomRemovalEvents (st : SidecarState) (snap : Snapshot) : List SinkEvent :=
  st.knownRooms.filterMap (fun r =>
    if (nextRooms snap).contains r then none else some (.roomRemoved r))

/-- Group updates (hueadapter.h:798-809). -/
def groupUpdateEvents (snap : Snapshot) : List SinkEvent :=
  snap.groups.filterMap (fun g =>
    if g.externalId ≠ "" then some (.groupUpdated g) else none)

/-- The `nextGroups` set (hueadapter.h:798-803). -/
def nextGroups (snap : Snapshot) : List String :=
  snap.groups.filterMap (fun g =>
    if g.externalId ≠ "" then some g.externalId else none)

/-- Stale-group removals (hueadapter.h:810-818). -/
def groupRemovalEvents (st : SidecarState) (snap : Snapshot) : List SinkEvent :=
  st.knownGroups.filterMap (fun g =>
    if (nextGroups snap).contains g then none else some (.groupRemoved g))

/-- `HueSidecar::publishSnapshot` (hueadapter.h:730-831) on the success path
(every sink send accepted): the emitted calls in source order, and the new
sidecar state committed at the end (`m_devices`, `m_lightResourceByDevice`,
`m_knownRooms`, `m_knownGroups` each replaced wholesale). -/
def publishSnapshot (st : SidecarState) (snap : Snapshot) :
    List SinkEvent × SidecarState :=
  (deviceRemovalEvents st snap ++ deviceUpdateEvents snap ++
     roomUpdateEvents snap ++ roomRemovalEvents st snap ++
     groupUpdateEvents snap ++ groupRemovalEvents st snap ++
     [.scenesReplaced snap.scenes],
   { devices := snap.devices,
     lightResourceByDevice := nextLightByDevice snap,
     knownRooms := nextRooms snap,
     knownGroups := nextGroups snap })

/-- Event classifiers used by the idempotence statements. -/
def isDeviceUpdatedEvent : SinkEvent → Bool
  | .deviceUpdated _ _ => true
  | _ => false

/-- Removal-flavoured sink calls. -/
def isRemovalEvent : SinkEvent → Bool
  | .deviceRemoved _ => true
  | .roomRemoved _ => true
  | .groupRemoved _ => true
  | _ => false

/-- The relevant fields of one scene JSON object. -/
structure SceneResObj where
  id : String
  metadataName : String
  groupRid : String
  groupRtype : String
  deriving DecidableEq

/-- Scene loop of `buildSnapshot` (hue_model.cpp:820-835): every scene entry
with a non-empty id is included; the name is copied verbatim from
`metadata.name` with no emptiness check. -/
def buildSnapshotScenes (sceneData : List SceneResObj) : List SceneV1 :=
  sceneData.filterMap (fun e =>
    if e.id ≠ "" then
      some { externalId := e.id, name := e.metadataName,
             scopeExternalId := e.groupRid, scopeType := e.groupRtype }
    else none)

/-- The cached-scene fields relevant to the adapter's name-rejection logic. -/
structure SceneA where
  id : String
  name : String
  deriving DecidableEq

/-- Name-handling prefix of `HueAdapter::handleV2SceneResource`
(hueadapter.cpp:4179-4201): reject a missing id; start from the cached scene
for that id (or a default-constructed one); adopt the trimmed metadata name
when non-empty (`firstNonEmptyString` returns the trimmed string value or the
empty string); reject the scene entirely — no store, no emission — when the
resulting name is still empty after trimming. -/
def handleV2SceneResourceName (cachedScenes : List (String × SceneA))
    (resId metadataName : String) : Option SceneA :=
  if resId = "" then none
  else
    let cached := (cachedScenes.lookup resId).getD { id := "", name := "" }
    let scene0 := { cached with id := resId }
    let sceneName := qtTrimmed metadataName
    let scene1 :=
      if qtTrimmed sceneName ≠ "" then { scene0 with name := sceneName } else scene0
    if qtTrimmed scene1.name = "" then none else some scene1

/-- A device entry used by the concrete snapshots below. -/
def exDeviceEntry : DeviceEntry :=
  { device := { externalId := "dev-1", name := "Lamp" }
    channels := [{ externalId := "on", hasValue := true, lastValue := .b true }]
    lightResourceId := "light-1" }

/-- A one-device snapshot. -/
def exSnapshotC2 : Snapshot :=
  { devices := [("dev-1", exDeviceEntry)], rooms := [], groups := [], scenes := [] }

/-- A device entry that exists in the previous cycle but not in
`exSnapshotC2`. -/
def exGoneEntry : DeviceEntry :=
  { device := { externalId := "gone", name := "Old" }
    channels := []
    lightResourceId := "" }

/-- A previous-cycle sidecar state containing only the vanished device. -/
def exPrevState : SidecarState :=
  { devices := [("gone", exGoneEntry)]
    lightResourceByDevice := []
    knownRooms := []
    knownGroups := [] }

/-! ## Color-temperature command paths
(hue_model.cpp:904-914, hueadapter.cpp:689-718) -/

/-- The `(id, minValue, maxValue)` fields of an adapter `Channel` consulted
by the preset branch. -/
structure AdapterChannel where
  id : String
  minValue : ℚ
  maxValue : ℚ
  deriving DecidableEq

/-- `buildLightCommandPayload`, `ct` branch (hue_model.cpp:904-914): the raw
mired value is clamped to the protocol-level range [100, 1000] and rounded;
no device-advertised range is consulted (the function has no access to
one). -/
def ctCommandMired (v : ℚ) : ℤ := roundHalfAway (stdClamp v 100 1000)

/-- `ct` branch of `HueAdapter::updateChannelState`
(hueadapter.cpp:689-695): the raw mired value is sent exactly as converted
(`value.toInt()`), with no clamping of any kind. -/
def updateChannelStateCtMired (v : ℤ) : ℤ := v

/-- Range selection of the `ctPreset` branch of
`HueAdapter::updateChannelState` (hueadapter.cpp:698-710): the first `ct`
channel's minValue/maxValue when positive, else the defaults 153/500. -/
def ctPresetRange (channels : List AdapterChannel) : ℚ × ℚ :=
  match channels.find? (fun ch => ch.id == "ct") with
  | some ch =>
    ((if ch.minValue > 0 then ch.minValue else 153),
     (if ch.maxValue > 0 then ch.maxValue else 500))
  | none => (153, 500)

/-- `ctPreset` branch of `HueAdapter::updateChannelState`
(hueadapter.cpp:696-718): the preset index, bounded to [0, 4], interpolates
linearly onto the advertised [min, max] mired range (midpoint when the span
is not positive). -/
def ctPresetMired (channels : List AdapterChannel) (value : ℤ) : ℤ :=
  let presetIdx := qBoundI 0 value 4
  let r := ctPresetRange channels
  let span := r.2 - r.1
  let t : ℚ := if span > 0 then (presetIdx : ℚ) / 4 else 1/2
  roundHalfAway (r.1 + t * span)

/-! ## Lazy device-metadata fetch queue (hueadapter.cpp:1079-1205) -/

/-- `kMaxConcurrentV2DeviceFetch` (hueadapter.cpp:30). -/
def kMaxConcurrentV2DeviceFetch : Nat := 4

/-- `m_pendingV2DeviceFetch` (set of in-flight ids), `m_v2DeviceFetchQueue`
(FIFO of waiting ids) and `m_failedV2DeviceFetch` (ids failed this cycle). -/
structure DeviceFetchState where
  pending : List String
  queue : List String
  failed : List String
  deriving DecidableEq

/-- `HueAdapter::startV2DeviceFetch` (hueadapter.cpp:1142-1172) with the
network manager and application key present: refuse empty or known-failed
ids; otherwise issue the request (insert into the pending set) and report
success. -/
def startV2DeviceFetch (st : DeviceFetchState) (deviceId : String) :
    DeviceFetchState × Bool :=
  if deviceId = "" then (st, false)
  else if st.failed.contains deviceId then (st, false)
  else ({ st with pending := st.pending ++ [deviceId] }, true)

/-- `HueAdapter::fetchV2DeviceResource` (hueadapter.cpp:1079-1098). -/
def fetchV2DeviceResource (st : DeviceFetchState) (deviceId : String) :
    DeviceFetchState :=
  if deviceId = "" then st
  else if st.failed.contains deviceId then st
  else if st.pending.contains deviceId then st
  else if st.queue.contains deviceId then st
  else if st.pending.length ≥ kMaxConcurrentV2DeviceFetch then
    { st with queue := st.queue ++ [deviceId] }
  else (startV2DeviceFetch st deviceId).1

/-- The drain loop of `startNextQueuedV2DeviceFetch`
(hueadapter.cpp:1180-1195): dequeue entries, discarding empty, failed or
already-pending ids, until one id can be started (at most one per
invocation); a full pending set stops the loop immediately, leaving the
queue untouched. -/
def startNextLoop (pending failed : List String) :
    List String → List String × Option String
  | [] => ([], none)
  | deviceId :: rest =>
    if pending.length < kMaxConcurrentV2DeviceFetch then
      if deviceId = "" ∨ failed.contains deviceId ∨ pending.contains deviceId then
        startNextLoop pending failed rest
      else (rest, some deviceId)
    else (deviceId :: rest, none)

/-- `HueAdapter::startNextQueuedV2DeviceFetch` (hueadapter.cpp:1174-1205).
The staggering timer (lines 1200-1204) merely re-invokes this function later
and performs no state change of its own. -/
def startNextQueuedV2DeviceFetch (st : DeviceFetchState) : DeviceFetchState :=
  match startNextLoop st.pending st.failed st.queue with
  | (rest, some deviceId) =>
    { st with queue := rest, pending := st.pending ++ [deviceId] }
  | (rest, none) => { st with queue := rest }

/-- Completion handling in `onNetworkReplyFinished` for a lazy
`/clip/v2/resource/device/{id}` reply (hueadapter.cpp:848-861, 881-885,
966-970): the id leaves the pending set, a failed fetch is additionally
recorded as failed for the cycle, and then one queued fetch may be
started. -/
def completeV2DeviceFetch (st : DeviceFetchState) (deviceId : String)
    (success : Bool) : DeviceFetchState :=
  let st1 :=
    if success then { st with pending := st.pending.erase deviceId }
    else { st with pending := st.pending.erase deviceId,
                   failed := st.failed ++ [deviceId] }
  startNextQueuedV2DeviceFetch st1

/-! ## Sidecar brightness command path
(hue_model.cpp:889-903, hueadapter.h:400-412) -/

/-- `scalarAsDouble` (hue_model.cpp:453-462). -/
def scalarAsDouble : ScalarValue → Option ℚ
  | .d v => some v
  | .i v => some (v : ℚ)
  | .b v => some (if v then 1 else 0)
  | .s _ => none

/-- The two fields of the `bri` command body: `on.on` and
`dimming.brightness`. -/
structure BriPayload where
  isOn : Bool
  brightness : ℚ
  deriving DecidableEq

/-- `buildLightCommandPayload`, `bri` branch (hue_model.cpp:889-903): the
numeric value is clamped to [0, 100]; the payload sets `dimming.brightness`
to the clamped value and `on.on` to whether the clamped value is positive. -/
def buildLightCommandPayloadBri (hasScalarValue : Bool) (value : ScalarValue) :
    Except String BriPayload :=
  if ¬ hasScalarValue then .error "Expected numeric brightness"
  else
    match scalarAsDouble value with
    | none => .error "Invalid brightness value"
    | some v =>
      let brightness := stdClamp v 0 100
      .ok { isOn := decide (brightness > 0), brightness := brightness }

/-- Post-send state reporting of `HueSidecar::onChannelInvoke` for the `bri`
channel (hueadapter.h:400-412): after a successful send, a `bri` update with
the clamped value followed by an `on` update carrying its positivity. -/
def onChannelInvokeBriStateUpdates (value : ScalarValue) :
    List (String × ScalarValue) :=
  match scalarAsDouble value with
  | none => []
  | some v =>
    let brightness := stdClamp v 0 100
    [("bri", .d brightness), ("on", .b (decide (brightness > 0)))]

/-- A transient scene stub as the bridge occasionally reports: a valid id but
an empty name. -/
def exSceneStub : SceneResObj :=
  { id := "scene-1", metadataName := "", groupRid := "room-1", groupRtype := "room" }

/-- The `v1::Scene` that the sidecar builds from `exSceneStub`. -/
def exSceneV1 : SceneV1 :=
  { externalId := "scene-1", name := "", scopeExternalId := "room-1", scopeType := "room" }

end HueModel

namespace HueModel

theorem pickClosest_mem (p a b c : PointQ) :
    pickClosest p a b c = a ∨ pickClosest p a b c = b ∨ pickClosest p a b c = c := by
  unfold pickClosest
  by_cases h1 : dist2 p b < dist2 p a <;> simp only [h1, if_true, if_false] <;>
    [skip; skip] <;> split <;> simp

theorem dist2_pickClosest_le (p a b c : PointQ) :
    dist2 p (pickClosest p a b c) ≤ dist2 p a ∧
    dist2 p (pickClosest p a b c) ≤ dist2 p b ∧
    dist2 p (pickClosest p a b c) ≤ dist2 p c := by
  unfold pickClosest
  by_cases h1 : dist2 p b < dist2 p a
  · simp only [h1, if_true]
    by_cases h2 : dist2 p c < dist2 p b
    · simp only [h2, if_true]
      exact ⟨by linarith, by linarith, le_refl _⟩
    · simp only [h2, if_false]
      exact ⟨le_of_lt h1, le_refl _, le_of_not_lt h2⟩
  · simp only [h1, if_false]
    by_cases h2 : dist2 p c < dist2 p a
    · simp only [h2, if_true]
      exact ⟨le_of_lt h2, by linarith [le_of_not_lt h1], le_refl _⟩
    · simp only [h2, if_false]
      exact ⟨le_refl _, le_of_not_lt h1, le_of_not_lt h2⟩

end HueModel

namespace HueModel

/-- Claim C8: outbound gamut clamping leaves a chromaticity point unchanged
when it lies inside the light's 3-point gamut triangle, and otherwise
replaces it with the nearest of the three closest-point-on-segment
projections onto the triangle's edges. -/
theorem claim_C8_gamut_clamp (gamuts : List (String × HueGamut))
    (lightId : String) (g : HueGamut) (p : PointQ)
    (hl : gamuts.lookup lightId = some g) (hv : g.isValid = true) :
    (pointInTriangle p g.p1 g.p2 g.p3 = true →
      clampColorToGamut gamuts lightId p = p) ∧
    (pointInTriangle p g.p1 g.p2 g.p3 = false →
      clampColorToGamut gamuts lightId p ∈ gamutEdgeProjections g p ∧
      ∀ q ∈ gamutEdgeProjections g p,
        dist2 p (clampColorToGamut gamuts lightId p) ≤ dist2 p q) := by
  have hrw : clampColorToGamut gamuts lightId p = clampToGamutCore g p := by
    simp [clampColorToGamut, hl, hv]
  rw [hrw]
  constructor
  · intro hin
    simp [clampToGamutCore, hin]
  · intro hout
    have hcore : clampToGamutCore g p =
        pickClosest p (closestPointOnSegment p g.p1 g.p2)
          (closestPointOnSegment p g.p2 g.p3)
          (closestPointOnSegment p g.p3 g.p1) := by
      simp [clampToGamutCore, hout]
    rw [hcore]
    constructor
    · simpa [gamutEdgeProjections] using
        pickClosest_mem p (closestPointOnSegment p g.p1 g.p2)
          (closestPointOnSegment p g.p2 g.p3) (closestPointOnSegment p g.p3 g.p1)
    · intro q hq
      have h3 := dist2_pickClosest_le p (closestPointOnSegment p g.p1 g.p2)
        (closestPointOnSegment p g.p2 g.p3) (closestPointOnSegment p g.p3 g.p1)
      simp only [gamutEdgeProjections, List.mem_cons, List.not_mem_nil, or_false] at hq
      rcases hq with h | h | h <;> subst h
      · exact h3.1
      · exact h3.2.1
      · exact h3.2.2

/-- Witness for claim C8 at a concrete gamut and point: the triangle
(0,0)-(4,0)-(0,4) with the outside point (4,4), whose nearest edge
projection is (2,2). -/
theorem claim_C8_witness :
    ([("l1", HueGamut.mk ⟨0, 0⟩ ⟨4, 0⟩ ⟨0, 4⟩)].lookup "l1"
        = some (HueGamut.mk ⟨0, 0⟩ ⟨4, 0⟩ ⟨0, 4⟩)) ∧
    (HueGamut.mk (⟨0, 0⟩ : PointQ) ⟨4, 0⟩ ⟨0, 4⟩).isValid = true ∧
    (pointInTriangle ⟨4, 4⟩ ⟨0, 0⟩ ⟨4, 0⟩ ⟨0, 4⟩ = false →
      clampColorToGamut [("l1", HueGamut.mk ⟨0, 0⟩ ⟨4, 0⟩ ⟨0, 4⟩)] "l1" ⟨4, 4⟩
          ∈ gamutEdgeProjections (HueGamut.mk ⟨0, 0⟩ ⟨4, 0⟩ ⟨0, 4⟩) ⟨4, 4⟩ ∧
      ∀ q ∈ gamutEdgeProjections (HueGamut.mk ⟨0, 0⟩ ⟨4, 0⟩ ⟨0, 4⟩) ⟨4, 4⟩,
        dist2 ⟨4, 4⟩
            (clampColorToGamut [("l1", HueGamut.mk ⟨0, 0⟩ ⟨4, 0⟩ ⟨0, 4⟩)] "l1" ⟨4, 4⟩)
          ≤ dist2 ⟨4, 4⟩ q) :=
  ⟨by decide, by decide,
   (claim_C8_gamut_clamp [("l1", HueGamut.mk ⟨0, 0⟩ ⟨4, 0⟩ ⟨0, 4⟩)] "l1"
      (HueGamut.mk ⟨0, 0⟩ ⟨4, 0⟩ ⟨0, 4⟩) ⟨4, 4⟩ (by decide) (by decide)).2⟩

end HueModel

namespace HueModel

/-- Claim C3 counterexample: two qualifying short-release events 600 ms apart
(a gap above the 500 ms reset threshold) with no other events.  The claim
requires the second release to first flush the prior burst, leaving a count
of 1 and no aggregated emission at window expiry; in the code the gap check
runs only on initial-press events, so the count reaches 2 and the window
expiry emits a DoublePress. -/
theorem claim_C3_counterexample :
    (buttonRun "dev-1" "button" .init
        [.event .ShortPressRelease 1000, .event .ShortPressRelease 1600]).1.count = 2 ∧
    ((buttonRun "dev-1" "button" .init
        [.event .ShortPressRelease 1000, .event .ShortPressRelease 1600,
         .timerFire]).2.filter (fun e => isAggregatedCode e.1))
      = [(.DoublePress, 1600)] := by
  constructor <;> rfl

/-- Claim C3 (amended): the burst-reset flush runs on initial-press events
(gap of at least 500 ms since the last tracked event), not on short-release
events; every short-release unconditionally increments the count, updates the
timestamp and (re)starts the 1200 ms window; on window expiry a count of
2/3/4/at-least-5 emits exactly one Double/Triple/Quadruple/Quintuple press
(count 1 or 0 emits nothing) and resets the count; and every handled raw
event is still emitted individually regardless of aggregation. -/
theorem claim_C3_amended (tr : ButtonMultiPressTracker)
    (deviceExtId channelExtId : String) (ts : Int)
    (hdev : deviceExtId ≠ "") (hch : channelExtId ≠ "") :
    (handleV2ButtonEvent tr deviceExtId channelExtId .ShortPressRelease ts =
      ({ deviceExtId := deviceExtId, channelExtId := channelExtId,
         count := tr.count + 1, lastTs := ts, timerArmed := true },
       [(.ShortPressRelease, ts)])) ∧
    (tr.count > 0 → tr.lastTs > 0 → ts - tr.lastTs ≥ 500 →
      handleV2ButtonEvent tr deviceExtId channelExtId .InitialPress ts =
        ((finalizePendingShortPress tr).1,
         (finalizePendingShortPress tr).2.toList ++ [(.InitialPress, ts)])) ∧
    (tr.timerArmed = true → tr.deviceExtId ≠ "" → tr.channelExtId ≠ "" →
      (buttonStep deviceExtId channelExtId tr .timerFire).1.count = 0 ∧
      (buttonStep deviceExtId channelExtId tr .timerFire).2
        = (if tr.count < 2 then []
           else [((match tr.count with
                   | 2 => ButtonEventCode.DoublePress
                   | 3 => ButtonEventCode.TriplePress
                   | 4 => ButtonEventCode.QuadruplePress
                   | _ => ButtonEventCode.QuintuplePress), tr.lastTs)])) ∧
    (∀ code : ButtonEventCode, code ≠ .None →
      (code, ts) ∈ (handleV2ButtonEvent tr deviceExtId channelExtId code ts).2) := by
  refine ⟨?_, ?_, ?_, ?_⟩
  · simp [handleV2ButtonEvent, handleShortPressRelease, hdev, hch]
  · intro h1 h2 h3
    simp [handleV2ButtonEvent, h1, h2, h3, kButtonMultiPressResetGapMs]
  · intro harm hd hc
    simp only [buttonStep, harm, if_true]
    constructor
    · unfold finalizePendingShortPress
      by_cases hcnt : tr.count < 2
      · simp [hcnt]
      · simp [hcnt, hd, hc]
    · unfold finalizePendingShortPress
      by_cases hcnt : tr.count < 2
      · simp [hcnt]
      · simp [hcnt, hd, hc]
  · intro code hcode
    unfold handleV2ButtonEvent
    simp [hcode]

/-- Witness for claim C3 (amended) at a tracker holding a burst of three
presses: the armed window expiring emits exactly one TriplePress. -/
theorem claim_C3_amended_witness :
    ("d" : String) ≠ "" ∧ ("c" : String) ≠ "" ∧
    (buttonStep "d" "c"
        { deviceExtId := "d", channelExtId := "c", count := 3, lastTs := 900,
          timerArmed := true } .timerFire).2 = [(.TriplePress, 900)] := by
  refine ⟨by decide, by decide, ?_⟩
  have h := ((claim_C3_amended
      { deviceExtId := "d", channelExtId := "c", count := 3, lastTs := 900,
        timerArmed := true } "d" "c" 1400 (by decide) (by decide)).2.2.1
      rfl (by decide) (by decide)).2
  simpa using h

end HueModel

namespace HueModel

theorem assocInsert_lookup_self {α : Type} (xs : List (String × α)) (k : String) (v : α) :
    (assocInsert xs k v).lookup k = some v := by
  induction xs with
  | nil => simp [assocInsert, List.lookup]
  | cons hd tl ih =>
    obtain ⟨k', v'⟩ := hd
    by_cases h : k' = k
    · simp [assocInsert, h, List.lookup]
    · have hb : (k == k') = false := beq_eq_false_iff_ne.mpr (Ne.symm h)
      simp [assocInsert, h, List.lookup, hb, ih]

theorem assocInsert_lookup_ne {α : Type} (xs : List (String × α)) (k k' : String)
    (v : α) (h : k' ≠ k) : (assocInsert xs k v).lookup k' = xs.lookup k' := by
  have hb : (k' == k) = false := beq_eq_false_iff_ne.mpr h
  induction xs with
  | nil => simp [assocInsert, List.lookup, hb]
  | cons hd tl ih =>
    obtain ⟨k0, v0⟩ := hd
    by_cases h0 : k0 = k
    · subst h0
      simp [assocInsert, List.lookup, hb]
    · by_cases h1 : k' = k0
      · subst h1
        simp [assocInsert, h0, List.lookup]
      · have hb1 : (k' == k0) = false := beq_eq_false_iff_ne.mpr h1
        simp [assocInsert, h0, List.lookup, hb1, ih]

theorem pollBridgeFetchLoop_no_core_failure
    (fetch : String → Option (List String)) (plan : List (String × Bool))
    (h : ∀ p ∈ plan, p.2 = true → fetch p.1 ≠ none) :
    pollBridgeFetchLoop fetch plan =
      (.ok (plan.map (fun p => (p.1, (fetch p.1).getD []))), plan.map Prod.fst) := by
  induction plan with
  | nil => rfl
  | cons hd tl ih =>
    obtain ⟨t, core⟩ := hd
    have htl : ∀ p ∈ tl, p.2 = true → fetch p.1 ≠ none :=
      fun p hp => h p (List.mem_cons_of_mem _ hp)
    cases hf : fetch t with
    | some arr =>
      simp [pollBridgeFetchLoop, hf, ih htl, Except.map]
    | none =>
      have hcore : core = false := by
        by_contra hc
        exact h (t, core) (List.mem_cons_self _ _) (by simpa using hc) hf
      subst hcore
      simp [pollBridgeFetchLoop, hf, ih htl, Except.map]

theorem pollBridgeFetchLoop_core_failure
    (fetch : String → Option (List String)) (t : String) (plan : List (String × Bool))
    (hmem : (t, true) ∈ plan) (hnone : fetch t = none) :
    ∃ u, (pollBridgeFetchLoop fetch plan).1 = .error u := by
  induction plan with
  | nil => simp at hmem
  | cons hd tl ih =>
    obtain ⟨v, c⟩ := hd
    cases hf : fetch v with
    | none =>
      cases c with
      | true => exact ⟨v, by simp [pollBridgeFetchLoop, hf]⟩
      | false =>
        have htl : (t, true) ∈ tl := by
          rcases List.mem_cons.mp hmem with heq | h
          · exact absurd (congrArg Prod.snd heq) (by simp)
          · exact h
        obtain ⟨u, hu⟩ := ih htl
        refine ⟨u, ?_⟩
        simp [pollBridgeFetchLoop, hf, hu, Except.map]
    | some arr =>
      have htl : (t, true) ∈ tl := by
        rcases List.mem_cons.mp hmem with heq | h
        · exfalso
          have ht : t = v := congrArg Prod.fst heq
          subst ht
          rw [hf] at hnone
          simp at hnone
        · exact h
      obtain ⟨u, hu⟩ := ih htl
      refine ⟨u, ?_⟩
      simp [pollBridgeFetchLoop, hf, hu, Except.map]

/-- Claim C4 counterexample: the claimed retry scheme does not exist on either
code path.  With every fetch succeeding except the secondary type `button`,
the sidecar's `pollBridge` issues exactly one `button` attempt and immediately
substitutes the empty array — no retries, no linearly increasing delay and no
degraded marking.  Conversely the adapter's snapshot error handler, on a first
failure of the core type `device`, schedules a retry (1000 ms) exactly as it
would for a secondary type instead of aborting the synchronization attempt. -/
theorem claim_C4_counterexample :
    (pollBridgeFetches buttonFailingFetch).2.count "button" = 1 ∧
    (pollBridgeFetches buttonFailingFetch).1 =
      .ok [("device", ["res"]), ("light", ["res"]), ("motion", ["res"]),
           ("tamper", ["res"]), ("temperature", ["res"]), ("light_level", ["res"]),
           ("device_power", ["res"]), ("button", []), ("zigbee_connectivity", ["res"]),
           ("room", ["res"]), ("zone", ["res"]), ("scene", ["res"])] ∧
    (onV2ResourceSnapshotError
        { pendingTypes := ["device"], retryCount := [], snapshotByType := [],
          snapshotFailedThisCycle := false, snapshotPending := 13,
          bootstrapDone := false, pendingDeviceFetch := [], deviceFetchQueue := [] }
        "device").2 = .retryScheduled 1000 := by
  refine ⟨?_, ?_, ?_⟩ <;> rfl

/-- Claim C4 (amended): the core/secondary distinction and the bounded retry
scheme live in different implementations.  In the sidecar's `pollBridge`, a
failing core type (device, light, room, zone, scene) aborts the poll with an
error, while a failing secondary type is immediately recorded as an empty
array with no retry (every type is fetched exactly once).  In the adapter's
snapshot fetcher, every resource type — core or secondary alike — is retried
up to 3 attempts with linearly increasing delay (1 s, 2 s, 3 s), and on
exhaustion that type's result is recorded as an empty array and the cycle is
marked failed (which later suppresses the rebuild). -/
theorem claim_C4_amended (fetch : String → Option (List String))
    (st : V2SnapshotState) (t : String) :
    ((∀ p ∈ pollBridgeFetchPlan, p.2 = true → fetch p.1 ≠ none) →
      pollBridgeFetches fetch =
        (.ok (pollBridgeFetchPlan.map (fun p => (p.1, (fetch p.1).getD []))),
         pollBridgeFetchPlan.map Prod.fst)) ∧
    (∀ u, (u, true) ∈ pollBridgeFetchPlan → fetch u = none →
      ∃ v, (pollBridgeFetches fetch).1 = .error v) ∧
    ((st.retryCount.lookup t).getD 0 < kMaxV2ResourceSnapshotRetries →
      (onV2ResourceSnapshotError st t).2 =
        .retryScheduled (kV2ResourceRetryBaseDelayMs * ((st.retryCount.lookup t).getD 0 + 1)) ∧
      (onV2ResourceSnapshotError st t).1.snapshotFailedThisCycle
          = st.snapshotFailedThisCycle ∧
      (onV2ResourceSnapshotError st t).1.snapshotByType = st.snapshotByType) ∧
    ((st.retryCount.lookup t).getD 0 ≥ kMaxV2ResourceSnapshotRetries →
      (onV2ResourceSnapshotError st t).2 = .gaveUp false ∧
      (onV2ResourceSnapshotError st t).1.snapshotByType
          = assocInsert st.snapshotByType t [] ∧
      ((onV2ResourceSnapshotError st t).1.snapshotFailedThisCycle = true ∨
       (onV2ResourceSnapshotError st t).1.bootstrapDone = true)) := by
  refine ⟨?_, ?_, ?_, ?_⟩
  · intro h
    exact pollBridgeFetchLoop_no_core_failure fetch pollBridgeFetchPlan h
  · intro u hmem hnone
    exact pollBridgeFetchLoop_core_failure fetch u pollBridgeFetchPlan hmem hnone
  · intro hlt
    simp only [onV2ResourceSnapshotError]
    rw [if_pos hlt]
    exact ⟨rfl, rfl, rfl⟩
  · intro hge
    have hnlt : ¬ (st.retryCount.lookup t).getD 0 < kMaxV2ResourceSnapshotRetries :=
      not_lt.mpr hge
    simp only [onV2ResourceSnapshotError]
    rw [if_neg hnlt]
    by_cases hready : (st.bootstrapDone = false ∧ st.snapshotPending - 1 = 0 ∧
        st.pendingDeviceFetch = [] ∧ st.deviceFetchQueue = [])
    · simp [finalizeV2SnapshotIfReady, hready]
    · simp [finalizeV2SnapshotIfReady, hready]

/-- Witness for claim C4 (amended): with every core type succeeding and only
`button` failing, the poll returns all arrays with `button` empty and fetches
each type exactly once. -/
theorem claim_C4_amended_witness :
    (∀ p ∈ pollBridgeFetchPlan, p.2 = true → buttonFailingFetch p.1 ≠ none) ∧
    pollBridgeFetches buttonFailingFetch =
      (.ok (pollBridgeFetchPlan.map
          (fun p => (p.1, (buttonFailingFetch p.1).getD []))),
       pollBridgeFetchPlan.map Prod.fst) :=
  ⟨by decide,
   (claim_C4_amended buttonFailingFetch buttonExhaustedState "button").1 (by decide)⟩

/-- Claim C1 counterexample: in `buttonExhaustedState` the `button` type has
failed all 3 retries while the `device` and `light` snapshots arrived intact.
The claim requires the cycle to still rebuild and update the successfully
fetched device and light resources; instead the final failed reply marks the
cycle failed, and finalization marks the bootstrap done while skipping
`buildDevicesFromV2Snapshots` entirely (`gaveUp false` records that the
rebuild — the only emission site — was not invoked), even though the fetched
device snapshot is still present in the state. -/
theorem claim_C1_counterexample :
    (onV2ResourceSnapshotError buttonExhaustedState "button").2 = .gaveUp false ∧
    (onV2ResourceSnapshotError buttonExhaustedState "button").1.bootstrapDone = true ∧
    (onV2ResourceSnapshotError buttonExhaustedState "button").1.snapshotByType.lookup "device"
        = some ["dev-1"] := by
  refine ⟨?_, ?_, ?_⟩ <;> rfl

/-- Claim C1 (amended): when a secondary resource type fails all 3 snapshot
retries and its reply was the last one outstanding, the adapter records an
empty array for it, marks the cycle failed, and finalization then completes
the bootstrap in a degraded mode that skips the rebuild entirely: no device
or light updates are emitted and no removals are reported (for any owner),
because `buildDevicesFromV2Snapshots` is never invoked; the successfully
fetched resource arrays are retained in the state but unused this cycle. -/
theorem claim_C1_amended (st : V2SnapshotState) (t : String)
    (hatt : (st.retryCount.lookup t).getD 0 ≥ kMaxV2ResourceSnapshotRetries)
    (hdone : st.bootstrapDone = false)
    (hpend : st.snapshotPending = 1)
    (hfetch : st.pendingDeviceFetch = [])
    (hq : st.deviceFetchQueue = []) :
    (onV2ResourceSnapshotError st t).2 = .gaveUp false ∧
    (onV2ResourceSnapshotError st t).1.bootstrapDone = true ∧
    (onV2ResourceSnapshotError st t).1.snapshotFailedThisCycle = false ∧
    (∀ u, u ≠ t → (onV2ResourceSnapshotError st t).1.snapshotByType.lookup u
        = st.snapshotByType.lookup u) ∧
    (onV2ResourceSnapshotError st t).1.snapshotByType.lookup t = some [] := by
  have hnlt : ¬ (st.retryCount.lookup t).getD 0 < kMaxV2ResourceSnapshotRetries :=
    not_lt.mpr hatt
  refine ⟨?_, ?_, ?_, ?_, ?_⟩
  · simp [onV2ResourceSnapshotError, hnlt, finalizeV2SnapshotIfReady, hdone, hpend,
      hfetch, hq]
  · simp [onV2ResourceSnapshotError, hnlt, finalizeV2SnapshotIfReady, hdone, hpend,
      hfetch, hq]
  · simp [onV2ResourceSnapshotError, hnlt, finalizeV2SnapshotIfReady, hdone, hpend,
      hfetch, hq]
  · intro u hu
    simp [onV2ResourceSnapshotError, hnlt, finalizeV2SnapshotIfReady, hdone, hpend,
      hfetch, hq, assocInsert_lookup_ne st.snapshotByType t u [] hu]
  · simp [onV2ResourceSnapshotError, hnlt, finalizeV2SnapshotIfReady, hdone, hpend,
      hfetch, hq, assocInsert_lookup_self st.snapshotByType t ([] : List String)]

/-- Witness for claim C1 (amended) at `buttonExhaustedState`. -/
theorem claim_C1_amended_witness :
    ((buttonExhaustedState.retryCount.lookup "button").getD 0
        ≥ kMaxV2ResourceSnapshotRetries ∧
     buttonExhaustedState.bootstrapDone = false ∧
     buttonExhaustedState.snapshotPending = 1 ∧
     buttonExhaustedState.pendingDeviceFetch = [] ∧
     buttonExhaustedState.deviceFetchQueue = []) ∧
    ((onV2ResourceSnapshotError buttonExhaustedState "button").2 = .gaveUp false ∧
     (onV2ResourceSnapshotError buttonExhaustedState "button").1.bootstrapDone = true) := by
  have h := claim_C1_amended buttonExhaustedState "button"
    (by decide) (by decide) (by decide) (by decide) (by decide)
  exact ⟨⟨by decide, by decide, by decide, by decide, by decide⟩, h.1, h.2.1⟩

end HueModel

namespace HueModel

theorem filter_filterMap_none {α : Type} (f : α → Option SinkEvent)
    (p : SinkEvent → Bool) (l : List α)
    (h : ∀ a e, f a = some e → p e = false) :
    (l.filterMap f).filter p = [] := by
  induction l with
  | nil => rfl
  | cons a t ih =>
    cases hf : f a with
    | none => simp [List.filterMap_cons, hf, ih]
    | some e => simp [List.filterMap_cons, hf, List.filter_cons, h a e hf, ih]

theorem deviceRemovalEvents_filter_updated (st : SidecarState) (snap : Snapshot) :
    (deviceRemovalEvents st snap).filter isDeviceUpdatedEvent = [] := by
  unfold deviceRemovalEvents
  apply filter_filterMap_none
  intro a e hf
  split at hf
  · exact Option.noConfusion hf
  · rw [← Option.some.inj hf]; rfl

theorem roomUpdateEvents_filter (snap : Snapshot) (p : SinkEvent → Bool)
    (hp : ∀ r, p (.roomUpdated r) = false) :
    (roomUpdateEvents snap).filter p = [] := by
  unfold roomUpdateEvents
  apply filter_filterMap_none
  intro a e hf
  split at hf
  · rw [← Option.some.inj hf]; exact hp a
  · exact Option.noConfusion hf

theorem roomRemovalEvents_filter_updated (st : SidecarState) (snap : Snapshot) :
    (roomRemovalEvents st snap).filter isDeviceUpdatedEvent = [] := by
  unfold roomRemovalEvents
  apply filter_filterMap_none
  intro a e hf
  split at hf
  · exact Option.noConfusion hf
  · rw [← Option.some.inj hf]; rfl

theorem groupUpdateEvents_filter (snap : Snapshot) (p : SinkEvent → Bool)
    (hp : ∀ g, p (.groupUpdated g) = false) :
    (groupUpdateEvents snap).filter p = [] := by
  unfold groupUpdateEvents
  apply filter_filterMap_none
  intro a e hf
  split at hf
  · rw [← Option.some.inj hf]; exact hp a
  · exact Option.noConfusion hf

theorem groupRemovalEvents_filter_updated (st : SidecarState) (snap : Snapshot) :
    (groupRemovalEvents st snap).filter isDeviceUpdatedEvent = [] := by
  unfold groupRemovalEvents
  apply filter_filterMap_none
  intro a e hf
  split at hf
  · exact Option.noConfusion hf
  · rw [← Option.some.inj hf]; rfl

theorem deviceUpdateEvents_filter_updated (snap : Snapshot) :
    (deviceUpdateEvents snap).filter isDeviceUpdatedEvent
      = snap.devices.map (fun kv => SinkEvent.deviceUpdated kv.1 kv.2) := by
  unfold deviceUpdateEvents
  induction snap.devices with
  | nil => rfl
  | cons kv t ih =>
    rw [List.flatMap_cons, List.filter_append, List.filter_cons]
    have hch : (kv.2.channels.filterMap (fun ch =>
        if ch.hasValue then
          some (SinkEvent.channelValue kv.2.device.externalId ch.externalId ch.lastValue)
        else none)).filter isDeviceUpdatedEvent = [] := by
      apply filter_filterMap_none
      intro a e hf
      split at hf
      · rw [← Option.some.inj hf]; rfl
      · exact Option.noConfusion hf
    simp [hch, ih, isDeviceUpdatedEvent]

theorem deviceUpdateEvents_filter_removal (snap : Snapshot) :
    (deviceUpdateEvents snap).filter isRemovalEvent = [] := by
  unfold deviceUpdateEvents
  induction snap.devices with
  | nil => rfl
  | cons kv t ih =>
    rw [List.flatMap_cons, List.filter_append, List.filter_cons]
    have hch : (kv.2.channels.filterMap (fun ch =>
        if ch.hasValue then
          some (SinkEvent.channelValue kv.2.device.externalId ch.externalId ch.lastValue)
        else none)).filter isRemovalEvent = [] := by
      apply filter_filterMap_none
      intro a e hf
      split at hf
      · rw [← Option.some.inj hf]; rfl
      · exact Option.noConfusion hf
    simp [hch, ih, isRemovalEvent]

theorem publish_filter_updated (st : SidecarState) (snap : Snapshot) :
    ((publishSnapshot st snap).1.filter isDeviceUpdatedEvent)
      = snap.devices.map (fun kv => SinkEvent.deviceUpdated kv.1 kv.2) := by
  simp only [publishSnapshot, List.filter_append]
  rw [deviceRemovalEvents_filter_updated, deviceUpdateEvents_filter_updated,
    roomUpdateEvents_filter snap isDeviceUpdatedEvent (fun _ => rfl),
    roomRemovalEvents_filter_updated,
    groupUpdateEvents_filter snap isDeviceUpdatedEvent (fun _ => rfl),
    groupRemovalEvents_filter_updated]
  simp [isDeviceUpdatedEvent]

theorem deviceRemovalEvents_self (st : SidecarState) (snap : Snapshot)
    (h : st.devices = snap.devices) :
    deviceRemovalEvents st snap = [] := by
  unfold deviceRemovalEvents
  rw [h]
  apply List.filterMap_eq_nil_iff.mpr
  intro kv hkv
  have hc : containsKey snap.devices kv.1 = true :=
    List.any_eq_true.mpr ⟨kv, hkv, by simp⟩
  simp [hc]

theorem roomRemovalEvents_self (st : SidecarState) (snap : Snapshot)
    (h : st.knownRooms = nextRooms snap) :
    roomRemovalEvents st snap = [] := by
  unfold roomRemovalEvents
  rw [h]
  apply List.filterMap_eq_nil_iff.mpr
  intro r hr
  have hc : (nextRooms snap).contains r = true := List.elem_eq_true_of_mem hr
  simp [hc, hr]

theorem groupRemovalEvents_self (st : SidecarState) (snap : Snapshot)
    (h : st.knownGroups = nextGroups snap) :
    groupRemovalEvents st snap = [] := by
  unfold groupRemovalEvents
  rw [h]
  apply List.filterMap_eq_nil_iff.mpr
  intro g hg
  have hc : (nextGroups snap).contains g = true := List.elem_eq_true_of_mem hg
  simp [hc, hg]

/-- Claim C2 counterexample: publishing the same one-device snapshot twice
re-emits the unchanged device as updated on the second pass (the committed
state is unchanged by the second pass, so the content cannot have differed
from the last-emitted state), refuting "zero redundant update emissions" and
"emitted as updated only if content differs". -/
theorem claim_C2_counterexample :
    ((publishSnapshot (publishSnapshot SidecarState.init exSnapshotC2).2
        exSnapshotC2).1.filter isDeviceUpdatedEvent)
      = [.deviceUpdated "dev-1" exDeviceEntry] ∧
    (publishSnapshot (publishSnapshot SidecarState.init exSnapshotC2).2
        exSnapshotC2).2
      = (publishSnapshot SidecarState.init exSnapshotC2).2 := by
  constructor <;> rfl

/-- Claim C2 (amended): rebuilding from identical snapshots is deterministic —
the second pass commits the same state, emits no removals and emits exactly
the same device-update events as the first — but every snapshot device is
re-emitted as updated unconditionally on each pass: `publishSnapshot` performs
no diff against the last-emitted state, so the number of redundant update
emissions on the second pass equals the number of devices, not zero. -/
theorem claim_C2_amended (st : SidecarState) (snap : Snapshot) :
    (publishSnapshot (publishSnapshot st snap).2 snap).2
        = (publishSnapshot st snap).2 ∧
    ((publishSnapshot (publishSnapshot st snap).2 snap).1.filter isRemovalEvent
        = []) ∧
    ((publishSnapshot (publishSnapshot st snap).2 snap).1.filter isDeviceUpdatedEvent
        = (publishSnapshot st snap).1.filter isDeviceUpdatedEvent) ∧
    ((publishSnapshot (publishSnapshot st snap).2 snap).1.filter isDeviceUpdatedEvent
        = snap.devices.map (fun kv => SinkEvent.deviceUpdated kv.1 kv.2)) := by
  refine ⟨rfl, ?_, ?_, ?_⟩
  · simp only [publishSnapshot, List.filter_append]
    rw [deviceUpdateEvents_filter_removal,
      roomUpdateEvents_filter snap isRemovalEvent (fun _ => rfl),
      groupUpdateEvents_filter snap isRemovalEvent (fun _ => rfl)]
    rw [show deviceRemovalEvents
        { devices := snap.devices, lightResourceByDevice := nextLightByDevice snap,
          knownRooms := nextRooms snap, knownGroups := nextGroups snap } snap = []
      from deviceRemovalEvents_self _ snap rfl]
    rw [show roomRemovalEvents
        { devices := snap.devices, lightResourceByDevice := nextLightByDevice snap,
          knownRooms := nextRooms snap, knownGroups := nextGroups snap } snap = []
      from roomRemovalEvents_self _ snap rfl]
    rw [show groupRemovalEvents
        { devices := snap.devices, lightResourceByDevice := nextLightByDevice snap,
          knownRooms := nextRooms snap, knownGroups := nextGroups snap } snap = []
      from groupRemovalEvents_self _ snap rfl]
    simp [isRemovalEvent]
  · rw [publish_filter_updated, publish_filter_updated]
  · rw [publish_filter_updated]

end HueModel

namespace HueModel

theorem not_mem_filterMap {α : Type} (f : α → Option SinkEvent) (l : List α)
    (ev : SinkEvent) (h : ∀ a, f a ≠ some ev) : ev ∉ l.filterMap f := by
  intro hmem
  obtain ⟨a, _, hfa⟩ := List.mem_filterMap.mp hmem
  exact h a hfa

theorem containsKey_of_mem {α : Type} (xs : List (String × α)) (kv : String × α)
    (id : String) (hm : kv ∈ xs) (hk : kv.1 = id) : containsKey xs id = true :=
  List.any_eq_true.mpr ⟨kv, hm, by simp [hk]⟩

theorem removalEvents_count_one (l snapdev : List (String × DeviceEntry)) (id : String)
    (hnodup : (l.map Prod.fst).Nodup)
    (hin : containsKey l id = true)
    (hout : containsKey snapdev id = false) :
    (l.filterMap (fun kv => if containsKey snapdev kv.1 then none
        else some (SinkEvent.deviceRemoved kv.1))).count (.deviceRemoved id) = 1 := by
  induction l with
  | nil => simp [containsKey] at hin
  | cons kv t ih =>
    rw [List.map_cons, List.nodup_cons] at hnodup
    obtain ⟨hnotin, hnodup2⟩ := hnodup
    rw [List.filterMap_cons]
    by_cases hk : kv.1 = id
    · have hcont : containsKey snapdev kv.1 = false := hk ▸ hout
      have hzero : (t.filterMap (fun kv => if containsKey snapdev kv.1 then none
          else some (SinkEvent.deviceRemoved kv.1))).count (SinkEvent.deviceRemoved id)
          = 0 := by
        rw [List.count_eq_zero]
        intro hmem
        obtain ⟨kv2, hkv2, hf⟩ := List.mem_filterMap.mp hmem
        split at hf
        · exact Option.noConfusion hf
        · have h2 : kv2.1 = id := SinkEvent.deviceRemoved.inj (Option.some.inj hf)
          exact hnotin (hk ▸ h2 ▸ List.mem_map_of_mem Prod.fst hkv2)
      simp [hcont, hout, List.count_cons, hzero, hk]
    · have hin2 : containsKey t id = true := by
        rcases List.any_eq_true.mp hin with ⟨p, hp, hbeq⟩
        rcases List.mem_cons.mp hp with rfl | hpt
        · exact absurd (by simpa using hbeq) hk
        · exact List.any_eq_true.mpr ⟨p, hpt, hbeq⟩
      have hne : id ≠ kv.1 := fun h => hk h.symm
      by_cases hc : containsKey snapdev kv.1
      · simp only [hc, if_true]
        exact ih hnodup2 hin2
      · simp only [Bool.not_eq_true] at hc
        simp [hc, List.count_cons, hne, ih hnodup2 hin2]

theorem deviceRemoved_not_mem_updateEvents (snap : Snapshot) (id : String) :
    SinkEvent.deviceRemoved id ∉ deviceUpdateEvents snap := by
  intro hmem
  obtain ⟨kv, _, hin⟩ := List.mem_flatMap.mp hmem
  rcases List.mem_cons.mp hin with heq | hmem2
  · exact SinkEvent.noConfusion heq
  · obtain ⟨ch, _, hf⟩ := List.mem_filterMap.mp hmem2
    split at hf
    · exact SinkEvent.noConfusion (Option.some.inj hf)
    · exact Option.noConfusion hf

theorem publish_mem_channelValue (st : SidecarState) (snap : Snapshot)
    (dId chId : String) (v : ScalarValue)
    (hmem : SinkEvent.channelValue dId chId v ∈ (publishSnapshot st snap).1) :
    ∃ kv ∈ snap.devices, kv.2.device.externalId = dId := by
  simp only [publishSnapshot, List.mem_append] at hmem
  rcases hmem with ((((((h | h) | h) | h) | h) | h) | h)
  · exact absurd h (not_mem_filterMap _ _ _ (by
      intro a
      split
      · exact fun hf => Option.noConfusion hf
      · exact fun hf => SinkEvent.noConfusion (Option.some.inj hf)))
  · obtain ⟨kv, hkv, hin⟩ := List.mem_flatMap.mp h
    rcases List.mem_cons.mp hin with heq | hmem2
    · exact SinkEvent.noConfusion heq
    · obtain ⟨ch, _, hf⟩ := List.mem_filterMap.mp hmem2
      split at hf
      · exact ⟨kv, hkv, (SinkEvent.channelValue.inj (Option.some.inj hf)).1⟩
      · exact Option.noConfusion hf
  · exact absurd h (not_mem_filterMap _ _ _ (by
      intro a
      split
      · exact fun hf => SinkEvent.noConfusion (Option.some.inj hf)
      · exact fun hf => Option.noConfusion hf))
  · exact absurd h (not_mem_filterMap _ _ _ (by
      intro a
      split
      · exact fun hf => Option.noConfusion hf
      · exact fun hf => SinkEvent.noConfusion (Option.some.inj hf)))
  · exact absurd h (not_mem_filterMap _ _ _ (by
      intro a
      split
      · exact fun hf => SinkEvent.noConfusion (Option.some.inj hf)
      · exact fun hf => Option.noConfusion hf))
  · exact absurd h (not_mem_filterMap _ _ _ (by
      intro a
      split
      · exact fun hf => Option.noConfusion hf
      · exact fun hf => SinkEvent.noConfusion (Option.some.inj hf)))
  · exact SinkEvent.noConfusion (List.mem_singleton.mp h)

theorem publish_mem_deviceRemoved (st : SidecarState) (snap : Snapshot) (id : String)
    (hmem : SinkEvent.deviceRemoved id ∈ (publishSnapshot st snap).1) :
    containsKey snap.devices id = false ∧ ∃ kv ∈ st.devices, kv.1 = id := by
  simp only [publishSnapshot, List.mem_append] at hmem
  rcases hmem with ((((((h | h) | h) | h) | h) | h) | h)
  · obtain ⟨kv, hkv, hf⟩ := List.mem_filterMap.mp h
    by_cases hc : containsKey snap.devices kv.1
    · simp [hc] at hf
    · simp only [hc, Bool.false_eq_true, if_false] at hf
      have hid : kv.1 = id := SinkEvent.deviceRemoved.inj (Option.some.inj hf)
      refine ⟨?_, kv, hkv, hid⟩
      rw [← hid]
      exact Bool.not_eq_true _ ▸ (by simpa using hc)
  · exact absurd h (deviceRemoved_not_mem_updateEvents snap id)
  · exact absurd h (not_mem_filterMap _ _ _ (by
      intro a
      split
      · exact fun hf => SinkEvent.noConfusion (Option.some.inj hf)
      · exact fun hf => Option.noConfusion hf))
  · exact absurd h (not_mem_filterMap _ _ _ (by
      intro a
      split
      · exact fun hf => Option.noConfusion hf
      · exact fun hf => SinkEvent.noConfusion (Option.some.inj hf)))
  · exact absurd h (not_mem_filterMap _ _ _ (by
      intro a
      split
      · exact fun hf => SinkEvent.noConfusion (Option.some.inj hf)
      · exact fun hf => Option.noConfusion hf))
  · exact absurd h (not_mem_filterMap _ _ _ (by
      intro a
      split
      · exact fun hf => Option.noConfusion hf
      · exact fun hf => SinkEvent.noConfusion (Option.some.inj hf)))
  · exact SinkEvent.noConfusion (List.mem_singleton.mp h)

/-- Claim C7: a device known from the previous cycle but absent from the
current snapshot is reported removed exactly once by `publishSnapshot`,
the publication emits no channel-value calls for that device id, and
re-processing the identical snapshot afterwards emits neither a further
removal nor any channel-value call for that id.  Hypotheses: the previous
device map has no duplicate keys, and every snapshot entry's device
external id equals its map key (as `buildSnapshot` guarantees,
hue_model.cpp:541-551). -/
theorem claim_C7_removed_once (st : SidecarState) (snap : Snapshot) (id : String)
    (hnodup : (st.devices.map Prod.fst).Nodup)
    (hkeys : ∀ kv ∈ snap.devices, kv.2.device.externalId = kv.1)
    (hin : containsKey st.devices id = true)
    (hout : containsKey snap.devices id = false) :
    ((publishSnapshot st snap).1.count (.deviceRemoved id) = 1) ∧
    (∀ chId v, SinkEvent.channelValue id chId v ∉ (publishSnapshot st snap).1) ∧
    (SinkEvent.deviceRemoved id
        ∉ (publishSnapshot (publishSnapshot st snap).2 snap).1) ∧
    (∀ chId v, SinkEvent.channelValue id chId v
        ∉ (publishSnapshot (publishSnapshot st snap).2 snap).1) := by
  have hchan : ∀ (st' : SidecarState) (chId : String) (v : ScalarValue),
      SinkEvent.channelValue id chId v ∉ (publishSnapshot st' snap).1 := by
    intro st' chId v hmem
    obtain ⟨kv, hkv, hdid⟩ := publish_mem_channelValue st' snap id chId v hmem
    have hk : kv.1 = id := (hkeys kv hkv) ▸ hdid
    rw [containsKey_of_mem snap.devices kv id hkv hk] at hout
    exact Bool.noConfusion hout
  refine ⟨?_, fun chId v => hchan st chId v, ?_, fun chId v => hchan _ chId v⟩
  · have h1 : (deviceRemovalEvents st snap).count (SinkEvent.deviceRemoved id) = 1 := by
      unfold deviceRemovalEvents
      exact removalEvents_count_one st.devices snap.devices id hnodup hin hout
    have h2 : (deviceUpdateEvents snap).count (SinkEvent.deviceRemoved id) = 0 :=
      List.count_eq_zero.mpr (deviceRemoved_not_mem_updateEvents snap id)
    have h3 : (roomUpdateEvents snap).count (SinkEvent.deviceRemoved id) = 0 :=
      List.count_eq_zero.mpr (not_mem_filterMap _ _ _ (by
        intro a
        split
        · exact fun hf => SinkEvent.noConfusion (Option.some.inj hf)
        · exact fun hf => Option.noConfusion hf))
    have h4 : (roomRemovalEvents st snap).count (SinkEvent.deviceRemoved id) = 0 :=
      List.count_eq_zero.mpr (not_mem_filterMap _ _ _ (by
        intro a
        split
        · exact fun hf => Option.noConfusion hf
        · exact fun hf => SinkEvent.noConfusion (Option.some.inj hf)))
    have h5 : (groupUpdateEvents snap).count (SinkEvent.deviceRemoved id) = 0 :=
      List.count_eq_zero.mpr (not_mem_filterMap _ _ _ (by
        intro a
        split
        · exact fun hf => SinkEvent.noConfusion (Option.some.inj hf)
        · exact fun hf => Option.noConfusion hf))
    have h6 : (groupRemovalEvents st snap).count (SinkEvent.deviceRemoved id) = 0 :=
      List.count_eq_zero.mpr (not_mem_filterMap _ _ _ (by
        intro a
        split
        · exact fun hf => Option.noConfusion hf
        · exact fun hf => SinkEvent.noConfusion (Option.some.inj hf)))
    simp [publishSnapshot, List.count_append, h1, h2, h3, h4, h5, h6]
  · intro hmem
    obtain ⟨hfalse, kv, hkv, hkid⟩ :=
      publish_mem_deviceRemoved (publishSnapshot st snap).2 snap id hmem
    have hkv2 : kv ∈ snap.devices := hkv
    rw [containsKey_of_mem snap.devices kv id hkv2 hkid] at hfalse
    exact Bool.noConfusion hfalse

/-- Witness for claim C7 at a concrete previous state holding a device
`gone` that the snapshot no longer contains. -/
theorem claim_C7_witness :
    ((exPrevState.devices.map Prod.fst).Nodup ∧
     containsKey exPrevState.devices "gone" = true ∧
     containsKey exSnapshotC2.devices "gone" = false) ∧
    ((publishSnapshot exPrevState exSnapshotC2).1.count (.deviceRemoved "gone") = 1 ∧
     SinkEvent.deviceRemoved "gone"
       ∉ (publishSnapshot (publishSnapshot exPrevState exSnapshotC2).2 exSnapshotC2).1) := by
  have h := claim_C7_removed_once exPrevState exSnapshotC2 "gone"
    (by decide) (by decide) (by decide) (by decide)
  exact ⟨⟨by decide, by decide, by decide⟩, h.1, h.2.2.1⟩

end HueModel

namespace HueModel

/-- Claim C5 counterexample: the sidecar's snapshot builder emits a scene
whose parsed name is empty.  The scene loop of `buildSnapshot`
(hue_model.cpp:820-835) filters only on an empty id, and `publishSnapshot`
forwards the scene list to the state sink unconditionally, so an empty-named
scene stub with a non-empty id reaches the sink. -/
theorem claim_C5_counterexample :
    buildSnapshotScenes [exSceneStub] = [exSceneV1] ∧
    SinkEvent.scenesReplaced [exSceneV1]
      ∈ (publishSnapshot SidecarState.init
          { devices := [], rooms := [], groups := [],
            scenes := buildSnapshotScenes [exSceneStub] }).1 := by
  constructor
  · rfl
  · decide

/-- Claim C5 (amended): the empty-name rejection exists only in the adapter's
event-stream scene handler — `handleV2SceneResource` drops a scene whose
trimmed name is empty (also after falling back to the cached name) and keeps
one with a non-empty trimmed name — while the sidecar's snapshot builder
emits every scene with a non-empty id to the state sink regardless of its
name, so empty-named scenes are published on that path. -/
theorem claim_C5_amended (cache : List (String × SceneA)) (resId metaName : String)
    (hid : resId ≠ "") :
    (qtTrimmed (qtTrimmed metaName) = "" →
      qtTrimmed ((cache.lookup resId).getD { id := "", name := "" }).name = "" →
      handleV2SceneResourceName cache resId metaName = none) ∧
    (qtTrimmed (qtTrimmed metaName) ≠ "" →
      handleV2SceneResourceName cache resId metaName
        = some { id := resId, name := qtTrimmed metaName }) ∧
    (∀ (sceneData : List SceneResObj), ∀ e ∈ sceneData, e.id ≠ "" →
      ({ externalId := e.id, name := e.metadataName, scopeExternalId := e.groupRid,
         scopeType := e.groupRtype } : SceneV1) ∈ buildSnapshotScenes sceneData) ∧
    (∀ (st : SidecarState) (snap : Snapshot),
      SinkEvent.scenesReplaced snap.scenes ∈ (publishSnapshot st snap).1) := by
  refine ⟨?_, ?_, ?_, ?_⟩
  · intro hmn hcn
    simp [handleV2SceneResourceName, hid, hmn, hcn]
  · intro hmn
    simp [handleV2SceneResourceName, hid, hmn]
  · intro sceneData e he hne
    exact List.mem_filterMap.mpr ⟨e, he, by simp [hne]⟩
  · intro st snap
    simp [publishSnapshot, List.mem_append]

/-- Witness for claim C5 (amended): a non-empty-named scene is kept by the
adapter handler. -/
theorem claim_C5_amended_witness :
    (("scene-1" : String) ≠ "") ∧
    handleV2SceneResourceName [] "scene-1" "Evening"
      = some { id := "scene-1", name := qtTrimmed "Evening" } :=
  ⟨by decide,
   (claim_C5_amended [] "scene-1" "Evening" (by decide)).2.1 (by decide)⟩

theorem roundHalfAway_of_nonneg (q : ℚ) (h : 0 ≤ q) :
    roundHalfAway q = ⌊q + 1/2⌋ := if_pos h

theorem ctPresetMired_formula (m M : ℚ) (hm : 0 < m) (hMm : m < M) :
    ∀ i : ℤ, 0 ≤ i → i ≤ 4 →
      ctPresetMired [{ id := "ct", minValue := m, maxValue := M }] i
        = roundHalfAway (m + (i : ℚ) / 4 * (M - m)) := by
  intro i h0 h4
  have hM : (0 : ℚ) < M := hm.trans hMm
  have hrange : ctPresetRange [{ id := "ct", minValue := m, maxValue := M }]
      = (m, M) := by
    simp [ctPresetRange, List.find?, hm, hM]
  have hspan : (0 : ℚ) < M - m := by linarith
  have hidx : qBoundI 0 i 4 = i := by
    rw [qBoundI, min_eq_right h4, max_eq_right h0]
  rw [ctPresetMired, hrange, hidx]
  simp only [hspan, if_pos]

/-- Claim C6 (amended): raw color-temperature writes through the sidecar
payload builder are clamped to the protocol-level [100, 1000] mired range
and rounded, independent of any device-advertised range (the function takes
none), while the adapter's preset-index path maps index 0..4 linearly onto
the advertised per-light [min, max] and the adapter's own raw `ct` branch
sends the value entirely unclamped; at a device range of [153, 500] the
preset maximum sends 500 while a raw sidecar write of 1000 still sends
1000 — the clamp/interpolation asymmetry between the two cited paths is
preserved. -/
theorem claim_C6_ct_asymmetry :
    (∀ v : ℚ, 100 ≤ ctCommandMired v ∧ ctCommandMired v ≤ 1000) ∧
    (∀ v : ℚ, 100 ≤ v → v ≤ 1000 → ctCommandMired v = roundHalfAway v) ∧
    (∀ m M : ℚ, 0 < m → m < M →
      ctPresetMired [{ id := "ct", minValue := m, maxValue := M }] 0
          = roundHalfAway m ∧
      ctPresetMired [{ id := "ct", minValue := m, maxValue := M }] 4
          = roundHalfAway M ∧
      (∀ i : ℤ, 0 ≤ i → i ≤ 4 →
        ctPresetMired [{ id := "ct", minValue := m, maxValue := M }] i
          = roundHalfAway (m + (i : ℚ) / 4 * (M - m)))) ∧
    (∀ v : ℤ, updateChannelStateCtMired v = v) ∧
    (ctCommandMired 1000 = 1000 ∧ ctCommandMired 50 = 100 ∧
      ctPresetMired [{ id := "ct", minValue := 153, maxValue := 500 }] 4 = 500) := by
  have hclamp_lo : ∀ v : ℚ, (100 : ℚ) ≤ stdClamp v 100 1000 := by
    intro v
    exact le_min (le_max_right _ _) (by norm_num)
  have hclamp_hi : ∀ v : ℚ, stdClamp v 100 1000 ≤ 1000 := by
    intro v
    exact min_le_right _ _
  refine ⟨?_, ?_, ?_, fun v => rfl, ?_, ?_, ?_⟩
  · intro v
    have h1 := hclamp_lo v
    have h2 := hclamp_hi v
    have h0 : (0 : ℚ) ≤ stdClamp v 100 1000 := by linarith
    rw [ctCommandMired, roundHalfAway_of_nonneg _ h0]
    constructor
    · rw [Int.le_floor]
      push_cast
      linarith
    · have hle : ⌊stdClamp v 100 1000 + 1/2⌋ ≤ ⌊(1000 : ℚ) + 1/2⌋ :=
        Int.floor_le_floor (by linarith)
      have h1000 : ⌊(1000 : ℚ) + 1/2⌋ = 1000 := by
        rw [Int.floor_eq_iff]
        norm_num
      rw [h1000] at hle
      exact hle
  · intro v h100 h1000
    have : stdClamp v 100 1000 = v := by
      rw [stdClamp, max_eq_left h100, min_eq_left h1000]
    rw [ctCommandMired, this]
  · intro m M hm hMm
    have hkey := ctPresetMired_formula m M hm hMm
    refine ⟨?_, ?_, hkey⟩
    · rw [hkey 0 (by norm_num) (by norm_num)]
      norm_num
    · rw [hkey 4 (by norm_num) (by norm_num)]
      congr 1
      push_cast
      ring
  · show roundHalfAway (stdClamp 1000 100 1000) = 1000
    rw [show stdClamp 1000 100 1000 = 1000 by norm_num [stdClamp]]
    rw [roundHalfAway_of_nonneg _ (by norm_num)]
    norm_num
  · show roundHalfAway (stdClamp 50 100 1000) = 100
    rw [show stdClamp 50 100 1000 = 100 by norm_num [stdClamp]]
    rw [roundHalfAway_of_nonneg _ (by norm_num)]
    norm_num
  · rw [show ctPresetMired [{ id := "ct", minValue := 153, maxValue := 500 }] 4
        = roundHalfAway (153 + (4 : ℚ) / 4 * (500 - 153)) from
      (ctPresetMired_formula 153 500 (by norm_num) (by norm_num)) 4
        (by norm_num) (by norm_num)]
    rw [show (153 : ℚ) + (4 : ℚ) / 4 * (500 - 153) = 500 by norm_num]
    rw [roundHalfAway_of_nonneg _ (by norm_num)]
    norm_num

/-- Witness for claim C6 at the default Hue range [153, 500]: preset index 0
maps to 153 mired while the raw path accepts 1000. -/
theorem claim_C6_witness :
    ((0 : ℚ) < 153 ∧ (153 : ℚ) < 500) ∧
    ctPresetMired [{ id := "ct", minValue := 153, maxValue := 500 }] 0
      = roundHalfAway 153 := by
  have h := (claim_C6_ct_asymmetry.2.2.1 153 500 (by norm_num) (by norm_num)).1
  exact ⟨⟨by norm_num, by norm_num⟩, h⟩

/-- Claim C10 (implicit): a sidecar write to the `bri` channel with numeric
value v builds a payload whose power field is exactly the positivity of the
clamped value (so writing brightness 0 turns the light off), the clamped
brightness stays in [0, 100], and on a successful send the sidecar reports a
`bri` channel update with the payload's clamped value followed by an `on`
update with the payload's power boolean — the two code paths compute the same
clamp. -/
theorem claim_C10_bri_payload (v : ℚ) :
    ∃ pl : BriPayload,
      buildLightCommandPayloadBri true (.d v) = .ok pl ∧
      pl.brightness = stdClamp v 0 100 ∧
      (pl.isOn = true ↔ 0 < v) ∧
      0 ≤ pl.brightness ∧ pl.brightness ≤ 100 ∧
      onChannelInvokeBriStateUpdates (.d v)
        = [("bri", .d pl.brightness), ("on", .b pl.isOn)] := by
  refine ⟨{ isOn := decide (stdClamp v 0 100 > 0), brightness := stdClamp v 0 100 },
    rfl, rfl, ?_, ?_, ?_, rfl⟩
  · simp [stdClamp, lt_min_iff, lt_max_iff]
  · exact le_min (le_max_right _ _) (by norm_num)
  · exact min_le_right _ _

end HueModel

namespace HueModel

theorem startNextLoop_some_lt (pending failed : List String) (q rest : List String)
    (deviceId : String)
    (h : startNextLoop pending failed q = (rest, some deviceId)) :
    pending.length < kMaxConcurrentV2DeviceFetch := by
  induction q generalizing rest with
  | nil => simp [startNextLoop] at h
  | cons x t ih =>
    by_cases hlen : pending.length < kMaxConcurrentV2DeviceFetch
    · exact hlen
    · simp [startNextLoop, hlen] at h

theorem startNextQueued_pending_le (st : DeviceFetchState)
    (h : st.pending.length ≤ kMaxConcurrentV2DeviceFetch) :
    (startNextQueuedV2DeviceFetch st).pending.length ≤ kMaxConcurrentV2DeviceFetch := by
  unfold startNextQueuedV2DeviceFetch
  cases hl : startNextLoop st.pending st.failed st.queue with
  | mk rest started =>
    cases started with
    | none => simpa using h
    | some deviceId =>
      have hlt := startNextLoop_some_lt st.pending st.failed st.queue rest deviceId hl
      simp only [List.length_append, List.length_cons, List.length_nil]
      omega

/-- Claim C9: the lazy device-metadata fetch entry point is idempotent — a
call for an id already in flight, already queued, or already known-failed
leaves the state unchanged — the in-flight set never exceeds 4 under both the
entry point and reply completion, completion starts at most one queued fetch,
and the queue drains in FIFO order: the first eligible queued id (skipping
empty, failed and already-pending entries, which are discarded) is the one
started. -/
theorem claim_C9_fetch_queue (st : DeviceFetchState) (deviceId : String)
    (success : Bool) (q1 q2 : List String) :
    ((st.pending.contains deviceId = true ∨ st.queue.contains deviceId = true ∨
        st.failed.contains deviceId = true) →
      fetchV2DeviceResource st deviceId = st) ∧
    (st.pending.length ≤ kMaxConcurrentV2DeviceFetch →
      (fetchV2DeviceResource st deviceId).pending.length
        ≤ kMaxConcurrentV2DeviceFetch) ∧
    (st.pending.length ≤ kMaxConcurrentV2DeviceFetch →
      (completeV2DeviceFetch st deviceId success).pending.length
        ≤ kMaxConcurrentV2DeviceFetch) ∧
    ((startNextQueuedV2DeviceFetch st).pending.length ≤ st.pending.length + 1) ∧
    (st.queue = q1 ++ deviceId :: q2 →
      st.pending.length < kMaxConcurrentV2DeviceFetch →
      (∀ x ∈ q1, x = "" ∨ st.failed.contains x = true ∨
        st.pending.contains x = true) →
      deviceId ≠ "" → st.failed.contains deviceId = false →
      st.pending.contains deviceId = false →
      startNextQueuedV2DeviceFetch st
        = { st with queue := q2, pending := st.pending ++ [deviceId] }) := by
  refine ⟨?_, ?_, ?_, ?_, ?_⟩
  · intro h
    unfold fetchV2DeviceResource
    by_cases h0 : deviceId = ""
    · rw [if_pos h0]
    · rw [if_neg h0]
      rcases h with h | h | h
      · by_cases h1 : st.failed.contains deviceId = true
        · rw [if_pos h1]
        · rw [if_neg h1, if_pos h]
      · by_cases h1 : st.failed.contains deviceId = true
        · rw [if_pos h1]
        · rw [if_neg h1]
          by_cases h2 : st.pending.contains deviceId = true
          · rw [if_pos h2]
          · rw [if_neg h2, if_pos h]
      · rw [if_pos h]
  · intro hle
    unfold fetchV2DeviceResource
    split
    · exact hle
    · split
      · exact hle
      · split
        · exact hle
        · split
          · exact hle
          · split
            · exact hle
            · rename_i h0 h1 h2 h3 hfull
              unfold startV2DeviceFetch
              rw [if_neg h0, if_neg h1]
              simp only [List.length_append, List.length_cons, List.length_nil]
              omega
  · intro hle
    unfold completeV2DeviceFetch
    have herase : ∀ (l : List String), (l.erase deviceId).length ≤ l.length :=
      fun l => List.length_erase_le deviceId l
    cases success with
    | true =>
      apply startNextQueued_pending_le
      exact le_trans (herase st.pending) hle
    | false =>
      apply startNextQueued_pending_le
      exact le_trans (herase st.pending) hle
  · unfold startNextQueuedV2DeviceFetch
    cases hl : startNextLoop st.pending st.failed st.queue with
    | mk rest started =>
      cases started with
      | none => simp
      | some d => simp
  · intro hq hlt hskip hne hnf hnp
    have hloop : ∀ (l1 : List String), (∀ x ∈ l1, x = "" ∨
        st.failed.contains x = true ∨ st.pending.contains x = true) →
        startNextLoop st.pending st.failed (l1 ++ deviceId :: q2)
          = (q2, some deviceId) := by
      intro l1
      induction l1 with
      | nil =>
        intro _
        have hnf2 : deviceId ∉ st.failed := by simpa using hnf
        have hnp2 : deviceId ∉ st.pending := by simpa using hnp
        simp [startNextLoop, hlt, hne, hnf2, hnp2]
      | cons x t ih =>
        intro hall
        have hx := hall x (List.mem_cons_self _ _)
        have ht : ∀ y ∈ t, y = "" ∨ st.failed.contains y = true ∨
            st.pending.contains y = true :=
          fun y hy => hall y (List.mem_cons_of_mem _ hy)
        simp only [List.cons_append, startNextLoop, if_pos hlt]
        rw [if_pos hx]
        exact ih ht
    unfold startNextQueuedV2DeviceFetch
    rw [hq, hloop q1 hskip]

/-- Witness for claim C9: with four fetches in flight, a fifth request
queues; completing one of the four then starts exactly the queued one. -/
theorem claim_C9_witness :
    (["a", "b", "c", "d"].length ≤ kMaxConcurrentV2DeviceFetch ∧
     (DeviceFetchState.mk ["a", "b", "c", "d"] [] []).pending.contains "a" = true) ∧
    (fetchV2DeviceResource (DeviceFetchState.mk ["a", "b", "c", "d"] [] []) "a"
        = DeviceFetchState.mk ["a", "b", "c", "d"] [] [] ∧
     (fetchV2DeviceResource (DeviceFetchState.mk ["a", "b", "c", "d"] [] []) "e").pending.length
        ≤ kMaxConcurrentV2DeviceFetch) := by
  have h := claim_C9_fetch_queue (DeviceFetchState.mk ["a", "b", "c", "d"] [] [])
    "a" true [] []
  have h2 := claim_C9_fetch_queue (DeviceFetchState.mk ["a", "b", "c", "d"] [] [])
    "e" true [] []
  exact ⟨⟨by decide, by decide⟩,
    h.1 (Or.inl (by decide)), h2.2.1 (by decide)⟩

end HueModel

namespace HueModel

/-- Claim C6 counterexample: the claim's clamp does not hold of every
outbound raw color-temperature write.  The adapter's own `ct` branch of
`updateChannelState` (hueadapter.cpp:689-695) sends the converted value
unclamped: a write of 2000 mired goes out as 2000, above the claimed
protocol ceiling of 1000, whereas the sidecar payload builder would clamp
the same write to 1000. -/
theorem claim_C6_counterexample :
    updateChannelStateCtMired 2000 = 2000 ∧ ¬ (2000 : ℤ) ≤ 1000 ∧
    ctCommandMired 2000 = 1000 := by
  refine ⟨rfl, by norm_num, ?_⟩
  show roundHalfAway (stdClamp 2000 100 1000) = 1000
  rw [show stdClamp 2000 100 1000 = 1000 by norm_num [stdClamp]]
  rw [roundHalfAway_of_nonneg _ (by norm_num)]
  rw [Int.floor_eq_iff]
  norm_num

end HueModel
